import Mathlib

/-!
Verification of the SpaceX launch-records dashboard (`spacex-dash-app.py`).

The dataset is a list of launch records; the two Dash callbacks
(`update_pie`, `update_scatter`) are embedded as pure functions over the
dataset and the current filter state, and the startup file check, the
payload min/max computation and the site-dropdown option list are embedded
from the corresponding top-level statements of the script.
-/

/-- One row of the loaded CSV: the columns the dashboard reads.
`payloadMass` is the "Payload Mass (kg)" column, `outcomeClass` is the
0/1 "class" column. -/
structure LaunchRecord where
  launchSite : String
  payloadMass : Int
  outcomeClass : Nat
  boosterCategory : String
deriving DecidableEq, Repr

/-- The filter state held by the two selector components: the
`site-dropdown` value and the `payload-slider` range `[lo, hi]`. -/
structure FilterState where
  site : String
  lo : Int
  hi : Int
deriving DecidableEq, Repr

/-- `CSV_PATH = "spacex_launch_dash.csv"` (line 17). -/
def CSV_PATH : String := "spacex_launch_dash.csv"

/-- Outcome of process startup: either `sys.exit(msg)` before serving, or
the loaded dataset with the server running. -/
inductive StartupResult where
  | exited (message : String)
  | serving (ds : List LaunchRecord)
deriving DecidableEq, Repr

/-- Lines 18–19: `if not os.path.exists(CSV_PATH): sys.exit(...)`; only
when the file exists does the process load the data and go on to serve. -/
def startup (fileExists : Bool) (loaded : List LaunchRecord) : StartupResult :=
  if !fileExists then
    .exited ("ERROR: '" ++ CSV_PATH ++ "' not found in the current folder.")
  else
    .serving loaded

/-- `df["Payload Mass (kg)"].min()` (line 22): the minimum of the payload
column, `none` on an empty frame. -/
def seriesMin : List Int → Option Int
  | [] => none
  | x :: xs =>
    match seriesMin xs with
    | none => some x
    | some m => some (min x m)

/-- `df["Payload Mass (kg)"].max()` (line 23). -/
def seriesMax : List Int → Option Int
  | [] => none
  | x :: xs =>
    match seriesMax xs with
    | none => some x
    | some m => some (max x m)

/-- `pmin` (line 22). -/
def pmin (ds : List LaunchRecord) : Option Int :=
  seriesMin (ds.map (·.payloadMass))

/-- `pmax` (line 23). -/
def pmax (ds : List LaunchRecord) : Option Int :=
  seriesMax (ds.map (·.payloadMass))

/-- Line 60: the payload slider's initial `value=[pmin, pmax]`. -/
def defaultPayloadRange (ds : List LaunchRecord) : Option Int × Option Int :=
  (pmin ds, pmax ds)

/-- `sorted(df["Launch Site"].unique())` (line 38): the distinct launch
sites of the dataset in sorted order. -/
def sortedUniqueSites (ds : List LaunchRecord) : List String :=
  List.insertionSort (· ≤ ·) (ds.map (·.launchSite)).dedup

/-- Lines 37–38: the dropdown option list, each option as
`(label, value)` — the `"All Sites"/"ALL"` sentinel first, then one option
per distinct site. -/
def siteDropdownOptions (ds : List LaunchRecord) : List (String × String) :=
  ("All Sites", "ALL") :: (sortedUniqueSites ds).map (fun s => (s, s))

/-- Line 39: the dropdown's initial `value="ALL"`. -/
def siteDropdownInitial : String := "ALL"

/-- `df["Launch Site"].unique()` in first-occurrence order, as used by the
`ALL` branch of the pie aggregation (px.pie groups rows by name). -/
def sitesInOrder (ds : List LaunchRecord) : List String :=
  (ds.map (·.launchSite)).dedup

/-- The per-site sum of the `class` column: what `px.pie(df,
values="class", names="Launch Site")` shows for one slice. -/
def siteClassSum (ds : List LaunchRecord) (s : String) : Nat :=
  ((ds.filter (fun r => r.launchSite == s)).map (·.outcomeClass)).sum

/-- Lines 79–84: the `ALL` branch of `update_pie` — group the whole frame
by launch site, summing `class` per site. -/
def pieAll (ds : List LaunchRecord) : List (String × Nat) :=
  (sitesInOrder ds).map (fun s => (s, siteClassSum ds s))

/-- `Series.value_counts()` (line 89): each distinct value with its
number of occurrences. -/
def valueCounts (xs : List Nat) : List (Nat × Nat) :=
  xs.dedup.map (fun v => (v, xs.count v))

/-- `.rename(index={0: "Failure", 1: "Success"})` (line 90): class values
0 and 1 are relabelled, any other index value keeps its own name. -/
def renameOutcome (v : Nat) : String :=
  if v = 0 then "Failure" else if v = 1 then "Success" else toString v

/-- Lines 86–99: the concrete-site branch of `update_pie` — restrict to
the site's rows, `value_counts` of `class`, relabel 0/1. -/
def pieSite (ds : List LaunchRecord) (site : String) : List (String × Nat) :=
  let cs := (ds.filter (fun r => r.launchSite == site)).map (·.outcomeClass)
  (valueCounts cs).map (fun p => (renameOutcome p.1, p.2))

/-- Lines 76–100: `update_pie(selected_site)`, as the label→value data of
the returned pie figure. -/
def update_pie (ds : List LaunchRecord) (selected_site : String) :
    List (String × Nat) :=
  if selected_site = "ALL" then pieAll ds else pieSite ds selected_site

/-- Lines 107–112: `update_scatter(selected_site, [lo, hi])`, as the rows
backing the returned scatter figure — payload mask first (inclusive on
both ends), then the site restriction unless the sentinel is selected. -/
def update_scatter (ds : List LaunchRecord) (selected_site : String)
    (lo hi : Int) : List LaunchRecord :=
  let data := ds.filter (fun r => decide (lo ≤ r.payloadMass) && decide (r.payloadMass ≤ hi))
  if selected_site ≠ "ALL" then
    data.filter (fun r => r.launchSite == selected_site)
  else
    data

/-- The pie callback as a function of the whole filter state: its only
declared input (line 75) is the site dropdown. -/
def pieOutput (ds : List LaunchRecord) (fs : FilterState) : List (String × Nat) :=
  update_pie ds fs.site

/-- The scatter callback as a function of the whole filter state
(lines 103–107: both inputs are declared). -/
def scatterOutput (ds : List LaunchRecord) (fs : FilterState) : List LaunchRecord :=
  update_scatter ds fs.site fs.lo fs.hi

/-- One request/response cycle: both callbacks run against the global
`df`, which neither assigns; the handler returns the two figures and the
dataset as it stands afterwards. -/
def handleRequest (ds : List LaunchRecord) (fs : FilterState) :
    (List (String × Nat) × List LaunchRecord) × List LaunchRecord :=
  ((pieOutput ds fs, scatterOutput ds fs), ds)

/-! ## Helper lemmas -/

/-- Membership in the scatter result, characterised against the source's
two filters. -/
lemma mem_update_scatter {ds : List LaunchRecord} {site : String}
    {lo hi : Int} {r : LaunchRecord} :
    r ∈ update_scatter ds site lo hi ↔
      r ∈ ds ∧ lo ≤ r.payloadMass ∧ r.payloadMass ≤ hi ∧
        (site = "ALL" ∨ r.launchSite = site) := by
  unfold update_scatter
  by_cases h : site = "ALL" <;>
    simp [h, List.mem_filter, and_assoc, and_comm, and_left_comm]

/-- Splitting a mapped sum along a Boolean predicate on the list. -/
lemma sum_map_filter_split (f : LaunchRecord → Nat) (p : LaunchRecord → Bool)
    (ds : List LaunchRecord) :
    ((ds.filter p).map f).sum + ((ds.filter (fun r => !p r)).map f).sum
      = (ds.map f).sum := by
  induction ds with
  | nil => rfl
  | cons r ds ih =>
    by_cases h : p r <;>
      simp [List.filter_cons, h, ← ih] <;> omega

/-- With 0/1 outcome classes, a sum of classes is a count of successes. -/
lemma sum_classes_eq_length_filter (ds : List LaunchRecord)
    (hbin : ∀ r ∈ ds, r.outcomeClass = 0 ∨ r.outcomeClass = 1) :
    (ds.map (·.outcomeClass)).sum
      = (ds.filter (fun r => r.outcomeClass == 1)).length := by
  induction ds with
  | nil => rfl
  | cons r ds ih =>
    have hr := hbin r (List.mem_cons_self r ds)
    have ih' := ih (fun s hs => hbin s (List.mem_cons_of_mem r hs))
    rcases hr with h0 | h1
    · simp [List.filter_cons, h0, ih']
    · simp [List.filter_cons, h1, ih']
      omega

/-- Counting a value in the mapped class column is filtering the rows. -/
lemma count_map_class (rs : List LaunchRecord) (v : Nat) :
    (rs.map (·.outcomeClass)).count v
      = (rs.filter (fun r => r.outcomeClass == v)).length := by
  induction rs with
  | nil => rfl
  | cons r rs ih =>
    by_cases h : r.outcomeClass = v <;>
      simp [List.count_cons, List.filter_cons, h, ih]

/-- A site not in the list contributes nothing to an indicator sum. -/
lemma sum_indicator_of_not_mem (sites : List String) (x : String) (c : Nat)
    (hx : x ∉ sites) :
    (sites.map (fun s => if x = s then c else 0)).sum = 0 := by
  induction sites with
  | nil => rfl
  | cons s sites ih =>
    have hxs : x ≠ s := fun h => hx (h ▸ List.mem_cons_self s sites)
    have hx' : x ∉ sites := fun h => hx (List.mem_cons_of_mem s h)
    simp [hxs, ih hx']

/-- Over a duplicate-free list containing `x`, the indicator sum is `c`. -/
lemma sum_indicator_of_mem (sites : List String) (x : String) (c : Nat)
    (hnd : sites.Nodup) (hx : x ∈ sites) :
    (sites.map (fun s => if x = s then c else 0)).sum = c := by
  induction sites with
  | nil => cases hx
  | cons s sites ih =>
    rcases List.nodup_cons.mp hnd with ⟨hs, hnd'⟩
    by_cases hxs : x = s
    · subst hxs
      simp [sum_indicator_of_not_mem sites x c hs]
    · have hx' : x ∈ sites := by
        rcases List.mem_cons.mp hx with h | h
        · exact absurd h hxs
        · exact h
      simp [hxs, ih hnd' hx']

/-- Prepending a record adds its class to exactly its own site's slice. -/
lemma siteClassSum_cons (r : LaunchRecord) (ds : List LaunchRecord) (s : String) :
    siteClassSum (r :: ds) s
      = (if r.launchSite = s then r.outcomeClass else 0) + siteClassSum ds s := by
  unfold siteClassSum
  by_cases h : r.launchSite = s <;> simp [List.filter_cons, h]

/-- Grouping by a duplicate-free list of sites covering every record
partitions the total class sum. -/
lemma sum_siteClassSum_of_cover (sites : List String) (ds : List LaunchRecord)
    (hnd : sites.Nodup) (hcov : ∀ r ∈ ds, r.launchSite ∈ sites) :
    (sites.map (fun s => siteClassSum ds s)).sum = (ds.map (·.outcomeClass)).sum := by
  induction ds with
  | nil => simp [siteClassSum]
  | cons r ds ih =>
    have hr : r.launchSite ∈ sites := hcov r (List.mem_cons_self r ds)
    have hcov' : ∀ x ∈ ds, x.launchSite ∈ sites :=
      fun x hx => hcov x (List.mem_cons_of_mem r hx)
    calc (sites.map (fun s => siteClassSum (r :: ds) s)).sum
        = (sites.map (fun s =>
            (if r.launchSite = s then r.outcomeClass else 0) + siteClassSum ds s)).sum := by
          simp only [siteClassSum_cons]
      _ = (sites.map (fun s => if r.launchSite = s then r.outcomeClass else 0)).sum
            + (sites.map (fun s => siteClassSum ds s)).sum := by
          rw [List.sum_map_add]
      _ = r.outcomeClass + (ds.map (·.outcomeClass)).sum := by
          rw [sum_indicator_of_mem sites r.launchSite r.outcomeClass hnd hr, ih hcov']
      _ = ((r :: ds).map (·.outcomeClass)).sum := by simp

/-- `seriesMin` is `none` only on the empty column. -/
lemma seriesMin_eq_none {xs : List Int} (h : seriesMin xs = none) : xs = [] := by
  cases xs with
  | nil => rfl
  | cons x xs =>
    unfold seriesMin at h
    cases hm : seriesMin xs <;> simp [hm] at h

/-- `seriesMax` is `none` only on the empty column. -/
lemma seriesMax_eq_none {xs : List Int} (h : seriesMax xs = none) : xs = [] := by
  cases xs with
  | nil => rfl
  | cons x xs =>
    unfold seriesMax at h
    cases hm : seriesMax xs <;> simp [hm] at h

/-- A `seriesMin` result is an attained lower bound of the column. -/
lemma seriesMin_spec {xs : List Int} {m : Int} (h : seriesMin xs = some m) :
    m ∈ xs ∧ ∀ p ∈ xs, m ≤ p := by
  induction xs generalizing m with
  | nil => simp [seriesMin] at h
  | cons x xs ih =>
    unfold seriesMin at h
    cases hm : seriesMin xs with
    | none =>
      rw [hm] at h
      have hnil := seriesMin_eq_none hm
      subst hnil
      simp at h
      subst h
      simp
    | some m' =>
      rw [hm] at h
      simp at h
      obtain ⟨hmem, hle⟩ := ih hm
      subst h
      refine ⟨?_, ?_⟩
      · rcases le_total x m' with hx | hx
        · simp [min_eq_left hx]
        · right
          rw [min_eq_right hx]
          exact hmem
      · intro p hp
        rcases List.mem_cons.mp hp with hpx | hpxs
        · subst hpx
          exact min_le_left _ _
        · exact le_trans (min_le_right _ _) (hle p hpxs)

/-- A `seriesMax` result is an attained upper bound of the column. -/
lemma seriesMax_spec {xs : List Int} {m : Int} (h : seriesMax xs = some m) :
    m ∈ xs ∧ ∀ p ∈ xs, p ≤ m := by
  induction xs generalizing m with
  | nil => simp [seriesMax] at h
  | cons x xs ih =>
    unfold seriesMax at h
    cases hm : seriesMax xs with
    | none =>
      rw [hm] at h
      have hnil := seriesMax_eq_none hm
      subst hnil
      simp at h
      subst h
      simp
    | some m' =>
      rw [hm] at h
      simp at h
      obtain ⟨hmem, hle⟩ := ih hm
      subst h
      refine ⟨?_, ?_⟩
      · rcases le_total x m' with hx | hx
        · right
          rw [max_eq_right hx]
          exact hmem
        · simp [max_eq_left hx]
      · intro p hp
        rcases List.mem_cons.mp hp with hpx | hpxs
        · subst hpx
          exact le_max_left _ _
        · exact le_trans (hle p hpxs) (le_max_right _ _)

/-- Membership in the single-site pie data: a slice is a class value of
the restricted frame, relabelled, with its occurrence count. -/
lemma mem_pieSite {ds : List LaunchRecord} {site : String} {l : String} {c : Nat} :
    (l, c) ∈ pieSite ds site ↔
      ∃ v, (∃ r ∈ ds.filter (fun r => r.launchSite == site), r.outcomeClass = v)
        ∧ l = renameOutcome v
        ∧ c = ((ds.filter (fun r => r.launchSite == site)).filter
                (fun r => r.outcomeClass == v)).length := by
  unfold pieSite valueCounts
  simp only [List.map_map, List.mem_map, List.mem_dedup, Function.comp,
    Prod.mk.injEq]
  constructor
  · rintro ⟨v, hv, hl, hc⟩
    exact ⟨v, hv, hl.symm, by rw [← hc, count_map_class]⟩
  · rintro ⟨v, hv, hl, hc⟩
    refine ⟨v, hv, hl.symm, ?_⟩
    rw [count_map_class]
    exact hc.symm

/-! ## Claim theorems -/

/-- C6: if the input file is missing at startup, the process exits with a
message naming the missing path and never proceeds to serve requests. -/
theorem startup_missing_file_exits (loaded : List LaunchRecord) :
    startup false loaded
        = .exited ("ERROR: '" ++ CSV_PATH ++ "' not found in the current folder.")
      ∧ (∀ ds, startup false loaded ≠ .serving ds) := by
  refine ⟨rfl, ?_⟩
  intro ds h
  simp [startup] at h

/-- C7: both chart callbacks are deterministic pure functions of the
dataset and filter state — handling the same request twice yields
identical figures and leaves the dataset unchanged both times. -/
theorem handleRequest_pure_deterministic (ds : List LaunchRecord) (fs : FilterState) :
    (handleRequest ds fs).2 = ds
      ∧ (handleRequest (handleRequest ds fs).2 fs).1 = (handleRequest ds fs).1
      ∧ (handleRequest (handleRequest ds fs).2 fs).2 = ds :=
  ⟨rfl, rfl, rfl⟩

/-- C3: every scatter point lies inside `[lo, hi]` (both ends inclusive):
records at exactly `lo` or `hi` pass the site-compatible filter, records
strictly outside the range never appear. -/
theorem update_scatter_range_inclusive (ds : List LaunchRecord) (site : String)
    (lo hi : Int) :
    (∀ r ∈ update_scatter ds site lo hi, lo ≤ r.payloadMass ∧ r.payloadMass ≤ hi)
      ∧ (∀ r ∈ ds, (site = "ALL" ∨ r.launchSite = site) →
          lo ≤ r.payloadMass → r.payloadMass ≤ hi →
            r ∈ update_scatter ds site lo hi)
      ∧ (∀ r ∈ ds, (r.payloadMass < lo ∨ hi < r.payloadMass) →
          r ∉ update_scatter ds site lo hi) := by
  refine ⟨?_, ?_, ?_⟩
  · intro r hr
    exact ⟨(mem_update_scatter.mp hr).2.1, (mem_update_scatter.mp hr).2.2.1⟩
  · intro r hr hsite hlo hhi
    exact mem_update_scatter.mpr ⟨hr, hlo, hhi, hsite⟩
  · intro r _ hout hmem
    obtain ⟨_, hlo, hhi, _⟩ := mem_update_scatter.mp hmem
    rcases hout with h | h <;> omega

/-- C4: for a concrete site, the scatter output is exactly the records
satisfying both the payload-range predicate and the site predicate. -/
theorem update_scatter_site_range_intersection (ds : List LaunchRecord)
    (site : String) (lo hi : Int) (r : LaunchRecord) (hsite : site ≠ "ALL") :
    r ∈ update_scatter ds site lo hi ↔
      r ∈ ds ∧ lo ≤ r.payloadMass ∧ r.payloadMass ≤ hi ∧ r.launchSite = site := by
  rw [mem_update_scatter]
  constructor
  · rintro ⟨h1, h2, h3, h4 | h4⟩
    · exact absurd h4 hsite
    · exact ⟨h1, h2, h3, h4⟩
  · rintro ⟨h1, h2, h3, h4⟩
    exact ⟨h1, h2, h3, Or.inr h4⟩

theorem update_scatter_site_range_intersection_witness :
    (⟨"CCAFS LC-40", 100, 1, "v1.0"⟩ : LaunchRecord)
      ∈ update_scatter [⟨"CCAFS LC-40", 100, 1, "v1.0"⟩] "CCAFS LC-40" 0 200 :=
  (update_scatter_site_range_intersection [⟨"CCAFS LC-40", 100, 1, "v1.0"⟩]
    "CCAFS LC-40" 0 200 ⟨"CCAFS LC-40", 100, 1, "v1.0"⟩ (by decide)).mpr
    (by refine ⟨List.mem_singleton.mpr rfl, by decide, by decide, rfl⟩)

/-- C5 counterexample: with one successful record and the degenerate
range `[2, 1]`, the scatter output is empty but the pie summary for the
sentinel selection is not — the pie never reads the payload range. -/
theorem update_pie_nonempty_on_degenerate_range :
    (1 : Int) < 2
      ∧ update_scatter [⟨"CCAFS LC-40", 100, 1, "v1.0"⟩] "ALL" 2 1 = []
      ∧ update_pie [⟨"CCAFS LC-40", 100, 1, "v1.0"⟩] "ALL" = [("CCAFS LC-40", 1)]
      ∧ ([("CCAFS LC-40", 1)] : List (String × Nat)) ≠ [] := by
  refine ⟨by decide, by decide, ?_, by decide⟩
  decide

/-- C5 amended: a degenerate range `lo > hi` crashes nothing — the
scatter output is the empty point set, and the pie summary (a function of
the site selection alone) is unchanged rather than empty. -/
theorem update_scatter_empty_on_degenerate_range (ds : List LaunchRecord)
    (site : String) (lo hi : Int) (h : hi < lo) :
    update_scatter ds site lo hi = []
      ∧ ∀ lo' hi' : Int,
          pieOutput ds ⟨site, lo, hi⟩ = pieOutput ds ⟨site, lo', hi'⟩ := by
  constructor
  · rw [List.eq_nil_iff_forall_not_mem]
    intro r hr
    obtain ⟨_, hlo, hhi, _⟩ := mem_update_scatter.mp hr
    omega
  · intro lo' hi'
    rfl

theorem update_scatter_empty_on_degenerate_range_witness :
    update_scatter [⟨"CCAFS LC-40", 100, 1, "v1.0"⟩] "ALL" 2 1 = []
      ∧ ∀ lo' hi' : Int,
          pieOutput [⟨"CCAFS LC-40", 100, 1, "v1.0"⟩] ⟨"ALL", 2, 1⟩
            = pieOutput [⟨"CCAFS LC-40", 100, 1, "v1.0"⟩] ⟨"ALL", lo', hi'⟩ :=
  update_scatter_empty_on_degenerate_range [⟨"CCAFS LC-40", 100, 1, "v1.0"⟩]
    "ALL" 2 1 (by decide)

/-- C8: on a nonempty dataset the slider's initial range is exactly the
attained global minimum and maximum payload mass. -/
theorem default_payload_range_global_min_max (ds : List LaunchRecord)
    (h : ds ≠ []) :
    ∃ lo hi : Int,
      defaultPayloadRange ds = (some lo, some hi)
        ∧ lo ∈ ds.map (·.payloadMass)
        ∧ (∀ p ∈ ds.map (·.payloadMass), lo ≤ p)
        ∧ hi ∈ ds.map (·.payloadMass)
        ∧ (∀ p ∈ ds.map (·.payloadMass), p ≤ hi) := by
  have hne : ds.map (·.payloadMass) ≠ [] := by simpa using h
  cases hmin : seriesMin (ds.map (·.payloadMass)) with
  | none => exact absurd (seriesMin_eq_none hmin) hne
  | some lo =>
    cases hmax : seriesMax (ds.map (·.payloadMass)) with
    | none => exact absurd (seriesMax_eq_none hmax) hne
    | some hi =>
      obtain ⟨hlmem, hlb⟩ := seriesMin_spec hmin
      obtain ⟨hhmem, hub⟩ := seriesMax_spec hmax
      exact ⟨lo, hi, by simp [defaultPayloadRange, pmin, pmax, hmin, hmax],
        hlmem, hlb, hhmem, hub⟩

theorem default_payload_range_global_min_max_witness :
    ∃ lo hi : Int,
      defaultPayloadRange [⟨"CCAFS LC-40", 100, 1, "v1.0"⟩,
          ⟨"KSC LC-39A", 40, 0, "v1.1"⟩]
          = (some lo, some hi)
        ∧ lo ∈ ([⟨"CCAFS LC-40", 100, 1, "v1.0"⟩,
            ⟨"KSC LC-39A", 40, 0, "v1.1"⟩] : List LaunchRecord).map (·.payloadMass)
        ∧ (∀ p ∈ ([⟨"CCAFS LC-40", 100, 1, "v1.0"⟩,
            ⟨"KSC LC-39A", 40, 0, "v1.1"⟩] : List LaunchRecord).map (·.payloadMass),
            lo ≤ p)
        ∧ hi ∈ ([⟨"CCAFS LC-40", 100, 1, "v1.0"⟩,
            ⟨"KSC LC-39A", 40, 0, "v1.1"⟩] : List LaunchRecord).map (·.payloadMass)
        ∧ (∀ p ∈ ([⟨"CCAFS LC-40", 100, 1, "v1.0"⟩,
            ⟨"KSC LC-39A", 40, 0, "v1.1"⟩] : List LaunchRecord).map (·.payloadMass),
            p ≤ hi) :=
  default_payload_range_global_min_max
    [⟨"CCAFS LC-40", 100, 1, "v1.0"⟩, ⟨"KSC LC-39A", 40, 0, "v1.1"⟩] (by decide)

/-- C9: the pie output is a function of the site selection alone — a
payload-range change never alters it — while the scatter output depends
on the site selection and on the payload range alike. -/
theorem pie_depends_only_on_site (ds : List LaunchRecord)
    (fs fs' : FilterState) (h : fs.site = fs'.site) :
    pieOutput ds fs = pieOutput ds fs'
      ∧ (∃ ds₀ : List LaunchRecord, ∃ g g' : FilterState,
          g.site = g'.site ∧ scatterOutput ds₀ g ≠ scatterOutput ds₀ g')
      ∧ (∃ ds₀ : List LaunchRecord, ∃ g g' : FilterState,
          g.lo = g'.lo ∧ g.hi = g'.hi ∧ scatterOutput ds₀ g ≠ scatterOutput ds₀ g') := by
  refine ⟨?_, ?_, ?_⟩
  · unfold pieOutput
    rw [h]
  · exact ⟨[⟨"CCAFS LC-40", 5, 1, "v1.0"⟩], ⟨"ALL", 0, 10⟩, ⟨"ALL", 6, 10⟩,
      rfl, by decide⟩
  · exact ⟨[⟨"CCAFS LC-40", 5, 1, "v1.0"⟩], ⟨"ALL", 0, 10⟩, ⟨"KSC LC-39A", 0, 10⟩,
      rfl, rfl, by decide⟩

theorem pie_depends_only_on_site_witness :
    pieOutput [⟨"CCAFS LC-40", 5, 1, "v1.0"⟩] ⟨"ALL", 0, 10⟩
      = pieOutput [⟨"CCAFS LC-40", 5, 1, "v1.0"⟩] ⟨"ALL", 6, 10⟩ :=
  (pie_depends_only_on_site [⟨"CCAFS LC-40", 5, 1, "v1.0"⟩]
    ⟨"ALL", 0, 10⟩ ⟨"ALL", 6, 10⟩ rfl).1

/-- C10: the dropdown lists the `"All Sites"/"ALL"` sentinel first and
then each distinct launch site of the dataset exactly once, in sorted
order, each as its own label and value; the initial selection is the
sentinel. -/
theorem site_dropdown_options_spec (ds : List LaunchRecord) :
    (siteDropdownOptions ds).head? = some ("All Sites", "ALL")
      ∧ (siteDropdownOptions ds).tail = (sortedUniqueSites ds).map (fun s => (s, s))
      ∧ (sortedUniqueSites ds).Nodup
      ∧ (sortedUniqueSites ds).Sorted (· ≤ ·)
      ∧ (∀ s, s ∈ sortedUniqueSites ds ↔ ∃ r ∈ ds, r.launchSite = s)
      ∧ siteDropdownInitial = "ALL" := by
  refine ⟨rfl, rfl, ?_, ?_, ?_, rfl⟩
  · exact (List.perm_insertionSort (· ≤ ·) _).nodup_iff.mpr (List.nodup_dedup _)
  · exact List.sorted_insertionSort _ _
  · intro s
    unfold sortedUniqueSites
    rw [(List.perm_insertionSort (· ≤ ·) _).mem_iff, List.mem_dedup, List.mem_map]

/-- C1: for the sentinel selection the pie groups records by launch site
and sums the 0/1 class per site — every slice equals its site's number of
successes, the slices total the dataset's successes, and every record's
site has a slice. -/
theorem update_pie_all_sums_successes_by_site (ds : List LaunchRecord)
    (hbin : ∀ r ∈ ds, r.outcomeClass = 0 ∨ r.outcomeClass = 1) :
    ((update_pie ds "ALL").map Prod.snd).sum
        = (ds.filter (fun r => r.outcomeClass == 1)).length
      ∧ (∀ s n, (s, n) ∈ update_pie ds "ALL" →
          n = ((ds.filter (fun r => r.launchSite == s)).filter
                (fun r => r.outcomeClass == 1)).length)
      ∧ (∀ r ∈ ds, ∃ n, (r.launchSite, n) ∈ update_pie ds "ALL") := by
  have hall : update_pie ds "ALL" = pieAll ds := if_pos rfl
  have hcov : ∀ r ∈ ds, r.launchSite ∈ sitesInOrder ds := by
    intro r hr
    exact List.mem_dedup.mpr (List.mem_map.mpr ⟨r, hr, rfl⟩)
  refine ⟨?_, ?_, ?_⟩
  · rw [hall]
    unfold pieAll
    rw [List.map_map]
    have hcomp : (Prod.snd ∘ fun s => (s, siteClassSum ds s))
        = fun s => siteClassSum ds s := rfl
    rw [hcomp,
      sum_siteClassSum_of_cover (sitesInOrder ds) ds (List.nodup_dedup _) hcov,
      sum_classes_eq_length_filter ds hbin]
  · intro s n hmem
    rw [hall] at hmem
    unfold pieAll at hmem
    obtain ⟨s', hs', heq⟩ := List.mem_map.mp hmem
    rw [Prod.mk.injEq] at heq
    obtain ⟨rfl, rfl⟩ := heq
    unfold siteClassSum
    exact sum_classes_eq_length_filter _
      (fun r hr => hbin r (List.mem_filter.mp hr).1)
  · intro r hr
    rw [hall]
    exact ⟨siteClassSum ds r.launchSite,
      List.mem_map.mpr ⟨r.launchSite, hcov r hr, rfl⟩⟩

theorem update_pie_all_sums_successes_by_site_witness :
    ((update_pie [⟨"CCAFS LC-40", 100, 1, "v1.0"⟩,
        ⟨"KSC LC-39A", 40, 0, "v1.1"⟩] "ALL").map Prod.snd).sum
        = (([⟨"CCAFS LC-40", 100, 1, "v1.0"⟩, ⟨"KSC LC-39A", 40, 0, "v1.1"⟩] :
            List LaunchRecord).filter (fun r => r.outcomeClass == 1)).length
      ∧ (∀ s n, (s, n) ∈ update_pie [⟨"CCAFS LC-40", 100, 1, "v1.0"⟩,
          ⟨"KSC LC-39A", 40, 0, "v1.1"⟩] "ALL" →
          n = ((([⟨"CCAFS LC-40", 100, 1, "v1.0"⟩, ⟨"KSC LC-39A", 40, 0, "v1.1"⟩] :
              List LaunchRecord).filter (fun r => r.launchSite == s)).filter
                (fun r => r.outcomeClass == 1)).length)
      ∧ (∀ r ∈ ([⟨"CCAFS LC-40", 100, 1, "v1.0"⟩, ⟨"KSC LC-39A", 40, 0, "v1.1"⟩] :
          List LaunchRecord), ∃ n, (r.launchSite, n)
            ∈ update_pie [⟨"CCAFS LC-40", 100, 1, "v1.0"⟩,
                ⟨"KSC LC-39A", 40, 0, "v1.1"⟩] "ALL") :=
  update_pie_all_sums_successes_by_site
    [⟨"CCAFS LC-40", 100, 1, "v1.0"⟩, ⟨"KSC LC-39A", 40, 0, "v1.1"⟩] (by decide)

/-- C2: for a concrete site the pie labels are exactly the subset of
`{"Success", "Failure"}` occurring among that site's records, with the
"Success" slice counting its class-1 records and the "Failure" slice its
class-0 records. -/
theorem update_pie_site_success_failure_counts (ds : List LaunchRecord)
    (site : String) (hsite : site ≠ "ALL")
    (hbin : ∀ r ∈ ds, r.outcomeClass = 0 ∨ r.outcomeClass = 1) :
    (∀ l c, (l, c) ∈ update_pie ds site →
        (l = "Success" ∧ c = ((ds.filter (fun r => r.launchSite == site)).filter
            (fun r => r.outcomeClass == 1)).length)
        ∨ (l = "Failure" ∧ c = ((ds.filter (fun r => r.launchSite == site)).filter
            (fun r => r.outcomeClass == 0)).length))
      ∧ ("Success" ∈ (update_pie ds site).map Prod.fst ↔
          ∃ r ∈ ds, r.launchSite = site ∧ r.outcomeClass = 1)
      ∧ ("Failure" ∈ (update_pie ds site).map Prod.fst ↔
          ∃ r ∈ ds, r.launchSite = site ∧ r.outcomeClass = 0) := by
  have hupd : update_pie ds site = pieSite ds site := if_neg hsite
  rw [hupd]
  have hbin' : ∀ r ∈ ds.filter (fun r => r.launchSite == site),
      r.outcomeClass = 0 ∨ r.outcomeClass = 1 :=
    fun r hr => hbin r (List.mem_filter.mp hr).1
  refine ⟨?_, ?_, ?_⟩
  · intro l c hmem
    obtain ⟨v, ⟨r, hr, hrv⟩, hl, hc⟩ := mem_pieSite.mp hmem
    rcases hbin' r hr with h0 | h1
    · right
      have hv0 : v = 0 := by omega
      subst hv0
      exact ⟨by rw [hl]; decide, hc⟩
    · left
      have hv1 : v = 1 := by omega
      subst hv1
      exact ⟨by rw [hl]; decide, hc⟩
  · constructor
    · intro h
      obtain ⟨⟨l, c⟩, hmem, hfst⟩ := List.mem_map.mp h
      obtain ⟨v, ⟨r, hr, hrv⟩, hl, hc⟩ := mem_pieSite.mp hmem
      have hsv : renameOutcome v = "Success" := by
        rw [← hl]
        exact hfst
      rcases hbin' r hr with h0 | h1
      · have hv0 : v = 0 := by omega
        rw [hv0] at hsv
        exact absurd hsv (by decide)
      · have hv1 : v = 1 := by omega
        obtain ⟨hin, hbeq⟩ := List.mem_filter.mp hr
        exact ⟨r, hin, eq_of_beq hbeq, by omega⟩
    · rintro ⟨r, hr, hsiteq, hcls⟩
      apply List.mem_map.mpr
      refine ⟨("Success", ((ds.filter (fun r => r.launchSite == site)).filter
        (fun r => r.outcomeClass == 1)).length), ?_, rfl⟩
      apply mem_pieSite.mpr
      refine ⟨1, ⟨r, ?_, hcls⟩, by decide, rfl⟩
      exact List.mem_filter.mpr ⟨hr, by simp [hsiteq]⟩
  · constructor
    · intro h
      obtain ⟨⟨l, c⟩, hmem, hfst⟩ := List.mem_map.mp h
      obtain ⟨v, ⟨r, hr, hrv⟩, hl, hc⟩ := mem_pieSite.mp hmem
      have hsv : renameOutcome v = "Failure" := by
        rw [← hl]
        exact hfst
      rcases hbin' r hr with h0 | h1
      · obtain ⟨hin, hbeq⟩ := List.mem_filter.mp hr
        exact ⟨r, hin, eq_of_beq hbeq, by omega⟩
      · have hv1 : v = 1 := by omega
        rw [hv1] at hsv
        exact absurd hsv (by decide)
    · rintro ⟨r, hr, hsiteq, hcls⟩
      apply List.mem_map.mpr
      refine ⟨("Failure", ((ds.filter (fun r => r.launchSite == site)).filter
        (fun r => r.outcomeClass == 0)).length), ?_, rfl⟩
      apply mem_pieSite.mpr
      refine ⟨0, ⟨r, ?_, hcls⟩, by decide, rfl⟩
      exact List.mem_filter.mpr ⟨hr, by simp [hsiteq]⟩

theorem update_pie_site_success_failure_counts_witness :
    (∀ l c, (l, c) ∈ update_pie [⟨"CCAFS LC-40", 100, 1, "v1.0"⟩,
        ⟨"CCAFS LC-40", 40, 0, "v1.1"⟩, ⟨"KSC LC-39A", 40, 1, "v1.1"⟩]
        "CCAFS LC-40" →
        (l = "Success" ∧ c = ((([⟨"CCAFS LC-40", 100, 1, "v1.0"⟩,
            ⟨"CCAFS LC-40", 40, 0, "v1.1"⟩, ⟨"KSC LC-39A", 40, 1, "v1.1"⟩] :
            List LaunchRecord).filter (fun r => r.launchSite == "CCAFS LC-40")).filter
            (fun r => r.outcomeClass == 1)).length)
        ∨ (l = "Failure" ∧ c = ((([⟨"CCAFS LC-40", 100, 1, "v1.0"⟩,
            ⟨"CCAFS LC-40", 40, 0, "v1.1"⟩, ⟨"KSC LC-39A", 40, 1, "v1.1"⟩] :
            List LaunchRecord).filter (fun r => r.launchSite == "CCAFS LC-40")).filter
            (fun r => r.outcomeClass == 0)).length))
      ∧ ("Success" ∈ (update_pie [⟨"CCAFS LC-40", 100, 1, "v1.0"⟩,
          ⟨"CCAFS LC-40", 40, 0, "v1.1"⟩, ⟨"KSC LC-39A", 40, 1, "v1.1"⟩]
          "CCAFS LC-40").map Prod.fst ↔
          ∃ r ∈ ([⟨"CCAFS LC-40", 100, 1, "v1.0"⟩, ⟨"CCAFS LC-40", 40, 0, "v1.1"⟩,
              ⟨"KSC LC-39A", 40, 1, "v1.1"⟩] : List LaunchRecord),
            r.launchSite = "CCAFS LC-40" ∧ r.outcomeClass = 1)
      ∧ ("Failure" ∈ (update_pie [⟨"CCAFS LC-40", 100, 1, "v1.0"⟩,
          ⟨"CCAFS LC-40", 40, 0, "v1.1"⟩, ⟨"KSC LC-39A", 40, 1, "v1.1"⟩]
          "CCAFS LC-40").map Prod.fst ↔
          ∃ r ∈ ([⟨"CCAFS LC-40", 100, 1, "v1.0"⟩, ⟨"CCAFS LC-40", 40, 0, "v1.1"⟩,
              ⟨"KSC LC-39A", 40, 1, "v1.1"⟩] : List LaunchRecord),
            r.launchSite = "CCAFS LC-40" ∧ r.outcomeClass = 0) :=
  update_pie_site_success_failure_counts
    [⟨"CCAFS LC-40", 100, 1, "v1.0"⟩, ⟨"CCAFS LC-40", 40, 0, "v1.1"⟩,
      ⟨"KSC LC-39A", 40, 1, "v1.1"⟩] "CCAFS LC-40" (by decide) (by decide)
